import Mathlib

/-!
Verification of the configuration-resolution code of metrics-viewer
(src/commands/common.go). The Go function parseCommonConfig and the
commonConfiguration struct are embedded shallowly below; external effects
(environment variables, os.Open, the Artifactory client) are supplied as
fields of the Context record, and the Go return pair
(*commonConfiguration, error) is embedded as
Option commonConfiguration × Option GoErr, one pair per return site; the
GoErr.message function holds the exact text each fmt.Errorf call builds.
-/

/-- StringSet. Modelled from the spec: provider.StringSet (the provider
package is not under src/) is "a set of label names"; its Add method inserts
each given element into the set. We embed the set as a duplicate-free list
of strings; membership gives the set semantics, and insertion order is kept
only to make the model executable. -/
abbrev StringSet := List String

/-- StringSet.Add inserts every element of the given list into the set,
mirroring the variadic Add method of provider.StringSet; an element already
present is not added again. -/
def StringSet.Add (s : StringSet) (xs : List String) : StringSet :=
  xs.foldl (fun a x => if x ∈ a then a else a ++ [x]) s

/-- Splits a character list at every comma; a trailing or doubled comma
yields an empty piece, as Go strings.Split does. -/
def splitCharsOnComma : List Char → List (List Char)
  | [] => [[]]
  | c :: cs =>
    if c = ',' then [] :: splitCharsOnComma cs
    else
      match splitCharsOnComma cs with
      | [] => [[c]]
      | h :: t => (c :: h) :: t

/-- Model of Go strings.Split with the comma separator: the substrings
between commas, in order, empty substrings included. -/
def goSplitComma (s : String) : List String :=
  (splitCharsOnComma s.data).map (fun l => String.mk l)

/-- Model of the Go standard library regexp package (an external dependency
of src/commands/common.go): the abstract form of a compiled expression.
The subset covered: literal characters, the any-character dot, character
classes, alternation, concatenation, grouping and the star/plus/question
repetition operators. Re.void denotes the empty language (used by the
derivative-based matcher). -/
inductive Re where
  | void : Re
  | eps : Re
  | chr : Char → Re
  | anyChar : Re
  | cls : Bool → List (Char × Char) → Re
  | alt : Re → Re → Re
  | cat : Re → Re → Re
  | star : Re → Re
deriving DecidableEq, Repr

/-- Whether the expression accepts the empty string. -/
def Re.nullable : Re → Bool
  | .void => false
  | .eps => true
  | .chr _ => false
  | .anyChar => false
  | .cls _ _ => false
  | .alt a b => a.nullable || b.nullable
  | .cat a b => a.nullable && b.nullable
  | .star _ => true

/-- Whether a character class (negated when the flag is true) admits a
character. -/
def clsMatches (neg : Bool) (items : List (Char × Char)) (c : Char) : Bool :=
  let inside := items.any (fun p => decide (p.1 ≤ c ∧ c ≤ p.2))
  if neg then !inside else inside

/-- Brzozowski derivative of an expression with respect to one character. -/
def Re.derivChar : Re → Char → Re
  | .void, _ => .void
  | .eps, _ => .void
  | .chr c, d => if c = d then .eps else .void
  | .anyChar, _ => .eps
  | .cls neg items, d => if clsMatches neg items d then .eps else .void
  | .alt a b, d => .alt (a.derivChar d) (b.derivChar d)
  | .cat a b, d =>
      if a.nullable then .alt (.cat (a.derivChar d) b) (b.derivChar d)
      else .cat (a.derivChar d) b
  | .star a, d => .cat (a.derivChar d) (.star a)

/-- Whether some prefix of the character list is in the expression's
language. -/
def matchHere : Re → List Char → Bool
  | r, [] => r.nullable
  | r, c :: cs => r.nullable || matchHere (r.derivChar c) cs

/-- Whether some substring starting at any position is in the expression's
language; this is the unanchored search the Go regexp matcher performs. -/
def searchFrom : Re → List Char → Bool
  | r, [] => matchHere r []
  | r, c :: cs => matchHere r (c :: cs) || searchFrom r cs

/-- Compiled regular expression, mirroring regexp.Regexp: the original
pattern text together with its parsed form. -/
structure Regexp where
  expr : String
  re : Re
deriving DecidableEq, Repr

/-- Reads the items of a character class after the opening bracket
(and after a possible leading caret), up to the closing bracket. -/
def reParseClsItems (fuel : Nat) (acc : List (Char × Char)) (cs : List Char) :
    Except String (List (Char × Char) × List Char) :=
  match fuel with
  | 0 => Except.error "expression too large"
  | f + 1 =>
    match cs with
    | [] => Except.error "missing closing bracket"
    | ']' :: t =>
        if acc.isEmpty then Except.error "missing closing bracket"
        else Except.ok (acc.reverse, t)
    | '\\' :: c :: t => reParseClsItems f ((c, c) :: acc) t
    | '\\' :: [] => Except.error "trailing backslash at end of expression"
    | a :: '-' :: b :: t =>
        if b = ']' then reParseClsItems f (('-', '-') :: (a, a) :: acc) (']' :: t)
        else if b < a then Except.error "invalid character class range"
        else reParseClsItems f ((a, b) :: acc) t
    | a :: t => reParseClsItems f ((a, a) :: acc) t

/-- Reads a whole character class after the opening bracket, handling the
optional leading negation caret. -/
def reParseCls (fuel : Nat) (cs : List Char) : Except String (Re × List Char) :=
  match cs with
  | '^' :: t => do
      let (items, rest) ← reParseClsItems fuel [] t
      Except.ok (Re.cls true items, rest)
  | t => do
      let (items, rest) ← reParseClsItems fuel [] t
      Except.ok (Re.cls false items, rest)

/-- Rejects a second repetition operator stacked on a repeated atom. -/
def reNoMoreOps (r : Re) (cs : List Char) : Except String (Re × List Char) :=
  match cs with
  | '*' :: _ => Except.error "invalid nested repetition operator"
  | '+' :: _ => Except.error "invalid nested repetition operator"
  | _ => Except.ok (r, cs)

/-- Consumes an optional lazy-match question mark after a repetition
operator (lazy matching accepts the same language), then rejects any
further stacked operator. -/
def reAfterOp (r : Re) (cs : List Char) : Except String (Re × List Char) :=
  match cs with
  | '?' :: t => reNoMoreOps r t
  | _ => reNoMoreOps r cs

mutual

/-- Reads an alternation: sequences separated by vertical bars. -/
def reParseAlt (fuel : Nat) (cs : List Char) : Except String (Re × List Char) :=
  match fuel with
  | 0 => Except.error "expression too large"
  | f + 1 => do
    let (r, rest) ← reParseSeq f cs
    match rest with
    | '|' :: t => do
        let (r2, rest2) ← reParseAlt f t
        Except.ok (Re.alt r r2, rest2)
    | _ => Except.ok (r, rest)

/-- Reads a concatenation of repeated atoms, stopping at an alternation
bar, a closing parenthesis or the end of the input. -/
def reParseSeq (fuel : Nat) (cs : List Char) : Except String (Re × List Char) :=
  match fuel with
  | 0 => Except.error "expression too large"
  | f + 1 =>
    match cs with
    | [] => Except.ok (Re.eps, [])
    | ')' :: _ => Except.ok (Re.eps, cs)
    | '|' :: _ => Except.ok (Re.eps, cs)
    | _ => do
        let (a, rest) ← reParseRep f cs
        let (b, rest2) ← reParseSeq f rest
        Except.ok (Re.cat a b, rest2)

/-- Reads an atom together with an optional repetition operator. -/
def reParseRep (fuel : Nat) (cs : List Char) : Except String (Re × List Char) :=
  match fuel with
  | 0 => Except.error "expression too large"
  | f + 1 => do
    let (a, rest) ← reParseAtom f cs
    match rest with
    | '*' :: t => reAfterOp (Re.star a) t
    | '+' :: t => reAfterOp (Re.cat a (Re.star a)) t
    | '?' :: t => reAfterOp (Re.alt Re.eps a) t
    | _ => Except.ok (a, rest)

/-- Reads one atom: a group, a dot, a character class, an escaped literal
or a plain literal character. -/
def reParseAtom (fuel : Nat) (cs : List Char) : Except String (Re × List Char) :=
  match fuel with
  | 0 => Except.error "expression too large"
  | f + 1 =>
    match cs with
    | [] => Except.error "missing operand"
    | '(' :: t => do
        let (r, rest) ← reParseAlt f t
        match rest with
        | ')' :: u => Except.ok (r, u)
        | _ => Except.error "missing closing paren"
    | ')' :: _ => Except.error "unexpected closing paren"
    | '|' :: _ => Except.error "missing operand"
    | '*' :: _ => Except.error "missing argument to repetition operator"
    | '+' :: _ => Except.error "missing argument to repetition operator"
    | '?' :: _ => Except.error "missing argument to repetition operator"
    | '.' :: t => Except.ok (Re.anyChar, t)
    | '[' :: t => reParseCls f t
    | '\\' :: c :: t => Except.ok (Re.chr c, t)
    | '\\' :: [] => Except.error "trailing backslash at end of expression"
    | c :: t => Except.ok (Re.chr c, t)

end

/-- Model of regexp.Compile of the Go standard library: turns a pattern
string into a compiled expression or reports why it is invalid. -/
def regexpCompile (s : String) : Except String Regexp := do
  let (r, rest) ← reParseAlt (4 * s.length + 8) s.data
  match rest with
  | [] => Except.ok { expr := s, re := r }
  | _ => Except.error "unexpected closing paren"

/-- Whether the compiled expression matches anywhere inside the string;
the model of the MatchString method of regexp.Regexp. -/
def Regexp.matchString (r : Regexp) (s : String) : Bool :=
  searchFrom r.re s.data

/-- The match-everything expression the code installs as the default
filter, regexp.MustCompile of the dot-star pattern: exactly the value
regexpCompile produces on that pattern. -/
def dotStarRegexp : Regexp :=
  { expr := ".*", re := Re.cat (Re.star Re.anyChar) Re.eps }

/-- MustCompile agrees with Compile on the dot-star pattern, so embedding
the default filter as a constant is faithful. -/
theorem regexpCompile_dotStar : regexpCompile ".*" = Except.ok dotStarRegexp := rfl

/-- Model of strconv.ParseInt with base 10 and bit size 64: an optional
sign followed by at least one decimal digit, with the value required to
fit in a signed 64-bit integer. The error strings abbreviate the kind of
the strconv.NumError Go wraps into the returned error: invalid syntax for
a malformed number, value out of range for a 64-bit overflow. -/
def parseIntBase10 (s : String) : Except String Int :=
  let withSign : Int × List Char :=
    match s.data with
    | '+' :: t => (1, t)
    | '-' :: t => (-1, t)
    | t => (1, t)
  let ds := withSign.2
  if ds.isEmpty then Except.error "invalid syntax"
  else if ds.all (fun c => c.isDigit) then
    let n : Nat := ds.foldl (fun a c => a * 10 + (c.toNat - '0'.toNat)) 0
    let v : Int := withSign.1 * (n : Int)
    if v < -(2 ^ 63) ∨ 2 ^ 63 - 1 < v then Except.error "value out of range"
    else Except.ok v
  else Except.error "invalid syntax"

/-- Nanoseconds in time.Second; time.Duration counts int64 nanoseconds. -/
def nsPerSecond : Int := 1000000000

/-- Two's-complement wrap-around of an unbounded integer into the signed
64-bit range, the arithmetic Go performs on time.Duration values. -/
def int64wrap (n : Int) : Int := (n + 2 ^ 63) % 2 ^ 64 - 2 ^ 63

/-- Opaque resolved server details, standing for the config.ArtifactoryDetails
value produced by the external jfrog-cli-core commands.GetConfig call. -/
abbrev RtDetails := String

/-- Modelled from the spec: provider.UrlMetricsFetcher (the provider package
is not under src/) is the source-fetcher capability; the spec's Source
Fetcher variants constructed here are the HTTP(S) endpoint reader with
optional basic auth, from provider.NewUrlMetricsFetcher, and the
remote-management-API reader, from provider.NewArtifactoryMetricsFetcher. -/
inductive UrlMetricsFetcher where
  | url : String → String → String → UrlMetricsFetcher
  | artifactory : RtDetails → UrlMetricsFetcher
deriving DecidableEq, Repr

/-- Default value of the interval flag (IntervalFlag in common.go). -/
def intervalFlagDefaultValue : String := "5"

/-- Default value of the aggregate-ignore-labels flag
(AggregateIgnoreLabelsFlag in common.go). -/
def aggregateIgnoreLabelsFlagDefaultValue : String := "start,end,status"

/-- Input of parseCommonConfig: the flag values read from the
components.Context, together with the external effects the function
performs, supplied as functions so that a run is deterministic — the
MOCK_METRICS_DATA environment variable, the outcome of os.Open on a path,
the outcome of commands.GetConfig for a server id, and the outcome of
provider.NewArtifactoryMetricsFetcher on resolved server details. -/
structure Context where
  flagFile : String
  flagUrl : String
  flagUser : String
  flagPassword : String
  flagArtifactory : Bool
  flagServer : String
  flagInterval : String
  flagFilter : String
  flagAggregateIgnoreLabels : String
  envMockMetricsData : String
  fileOpen : String → Except String Unit
  getArtifactoryConfig : String → Except String RtDetails
  newArtifactoryFetcher : RtDetails → Except String UrlMetricsFetcher

/-- The commonConfiguration struct of common.go. The urlMetricsFetcher
interface value and the filter pointer are nil-able, hence Option; the
interval is a time.Duration, an int64 count of nanoseconds. -/
structure commonConfiguration where
  file : String
  urlMetricsFetcher : Option UrlMetricsFetcher
  interval : Int
  filter : Option Regexp
  aggregateIgnoreLabels : StringSet
deriving DecidableEq

/-- Accessor method File of commonConfiguration. -/
def commonConfiguration.File (c : commonConfiguration) : String := c.file

/-- Accessor method UrlMetricsFetcher of commonConfiguration. -/
def commonConfiguration.UrlMetricsFetcher (c : commonConfiguration) :
    Option UrlMetricsFetcher := c.urlMetricsFetcher

/-- Accessor method Interval of commonConfiguration. -/
def commonConfiguration.Interval (c : commonConfiguration) : Int := c.interval

/-- Accessor method Filter of commonConfiguration. -/
def commonConfiguration.Filter (c : commonConfiguration) : Option Regexp :=
  c.filter

/-- Accessor method AggregateIgnoreLabels of commonConfiguration. -/
def commonConfiguration.AggregateIgnoreLabels (c : commonConfiguration) :
    StringSet := c.aggregateIgnoreLabels

/-- The errors parseCommonConfig can return, one constructor per
fmt.Errorf site, each carrying the values interpolated into the message. -/
inductive GoErr where
  | missingSource : GoErr
  | tooManySources : GoErr
  | fileOpenFailed : String → String → GoErr
  | artifactoryConfigFailed : String → String → GoErr
  | artifactoryFetcherFailed : String → GoErr
  | intervalParseFailed : String → String → GoErr
  | intervalNotPositive : Int → GoErr
  | invalidFilter : String → GoErr
deriving DecidableEq, Repr

/-- The exact message text each error renders to, as built by the
fmt.Errorf calls of parseCommonConfig. -/
def GoErr.message : GoErr → String
  | .missingSource => "one flag is required: --file | --url | --artifactory"
  | .tooManySources => "only one flag is required: --file | --url | --artifactory"
  | .fileOpenFailed path cause => "could not open file " ++ path ++ ": " ++ cause
  | .artifactoryConfigFailed serverId cause =>
      (if serverId = "" then "could not load configuration for current Artifactory server"
       else "could not load configuration for Artifactory server " ++ serverId)
        ++ "; cause: " ++ cause
  | .artifactoryFetcherFailed cause =>
      "could not initiate metrics fetcher from Artifactory; cause: " ++ cause
  | .intervalParseFailed value cause =>
      "failed to parse interval value: " ++ value ++ "; cause: " ++ cause
  | .intervalNotPositive value =>
      "interval value must be positive; got: " ++ toString value
  | .invalidFilter cause => "invalid filter expression; cause: " ++ cause

/-- The countInputFlags tally of parseCommonConfig: how many of the file,
url and artifactory sources are selected. -/
def countInputFlags (c : Context) : Nat :=
  (if c.flagFile ≠ "" then 1 else 0) + (if c.flagUrl ≠ "" then 1 else 0) +
    (if c.flagArtifactory then 1 else 0)

/-- The file-open probe of parseCommonConfig: when the file flag is set,
os.Open is attempted and the handle is closed at once; only a failure is
reported, as the error string the code builds. -/
def fileCheck (c : Context) : Option GoErr :=
  if c.flagFile ≠ "" then
    match c.fileOpen c.flagFile with
    | Except.ok _ => none
    | Except.error e => some (GoErr.fileOpenFailed c.flagFile e)
  else none

/-- The artifactory branch of parseCommonConfig: when the artifactory flag
is set, load the server configuration and build the Artifactory metrics
fetcher, wrapping either failure in the code's error message. -/
def artifactoryFetcher (c : Context) : Except GoErr (Option UrlMetricsFetcher) :=
  if c.flagArtifactory then
    match c.getArtifactoryConfig c.flagServer with
    | Except.error e => Except.error (GoErr.artifactoryConfigFailed c.flagServer e)
    | Except.ok rt =>
        match c.newArtifactoryFetcher rt with
        | Except.error e => Except.error (GoErr.artifactoryFetcherFailed e)
        | Except.ok f => Except.ok (some f)
  else Except.ok none

/-- The url branch of parseCommonConfig runs after the artifactory branch
and overwrites the fetcher when the url flag is set. -/
def resolvedFetcher (c : Context) (fa : Option UrlMetricsFetcher) :
    Option UrlMetricsFetcher :=
  if c.flagUrl ≠ "" then
    some (UrlMetricsFetcher.url c.flagUrl c.flagUser c.flagPassword)
  else fa

/-- The final lines of parseCommonConfig: resolve the ignore-labels flag
into the aggregateIgnoreLabels set and return the completed configuration
with a nil error. -/
def buildConfig (c : Context) (fetcher : Option UrlMetricsFetcher)
    (interval : Int) (flt : Regexp) :
    Option commonConfiguration × Option GoErr :=
  (some
    { file := c.flagFile
      urlMetricsFetcher := fetcher
      interval := interval
      filter := some flt
      aggregateIgnoreLabels :=
        if c.flagAggregateIgnoreLabels = "" then ([] : StringSet)
        else StringSet.Add [] (goSplitComma c.flagAggregateIgnoreLabels) },
    none)

/-- The parseCommonConfig function of common.go. Each Go return site
appears as one pair: a nil configuration with a non-nil error, or the
completed configuration with a nil error. -/
def parseCommonConfig (c : Context) : Option commonConfiguration × Option GoErr :=
  if countInputFlags c = 0 ∧ c.envMockMetricsData = "" then
    (none, some GoErr.missingSource)
  else if 1 < countInputFlags c then
    (none, some GoErr.tooManySources)
  else
    match fileCheck c with
    | some e => (none, some e)
    | none =>
      match artifactoryFetcher c with
      | Except.error e => (none, some e)
      | Except.ok fa =>
        match parseIntBase10 c.flagInterval with
        | Except.error e =>
            (none, some (GoErr.intervalParseFailed c.flagInterval e))
        | Except.ok intValue =>
          if intValue ≤ 0 then (none, some (GoErr.intervalNotPositive intValue))
          else
            if c.flagFilter = "" then
              buildConfig c (resolvedFetcher c fa)
                (int64wrap (intValue * nsPerSecond)) dotStarRegexp
            else
              match regexpCompile c.flagFilter with
              | Except.error e => (none, some (GoErr.invalidFilter e))
              | Except.ok flt =>
                  buildConfig c (resolvedFetcher c fa)
                    (int64wrap (intValue * nsPerSecond)) flt

/-- Modelled from the spec: the tagged-variant representation the spec
prescribes for the ignore-label configuration, a variant over
ExplicitSet(names), All and None in which the sentinels override the
explicit list. -/
inductive IgnoreLabelsSpec where
  | explicitSet : StringSet → IgnoreLabelsSpec
  | allLabels : IgnoreLabelsSpec
  | noLabels : IgnoreLabelsSpec
deriving DecidableEq, Repr

/-- Modelled from the spec: how the flag text would resolve under the
spec's tagged-variant representation — the ALL and NONE sentinels become
the dedicated variants instead of set members. -/
def ignoreSpecOfFlag (flagValue : String) : IgnoreLabelsSpec :=
  if flagValue = "ALL" then IgnoreLabelsSpec.allLabels
  else if flagValue = "NONE" then IgnoreLabelsSpec.noLabels
  else IgnoreLabelsSpec.explicitSet (StringSet.Add [] (goSplitComma flagValue))

/-- A context with every flag at its default, an empty environment, and
benign external effects; concrete inputs for witnesses perturb it. -/
def baseContext : Context :=
  { flagFile := ""
    flagUrl := ""
    flagUser := ""
    flagPassword := ""
    flagArtifactory := false
    flagServer := ""
    flagInterval := intervalFlagDefaultValue
    flagFilter := ""
    flagAggregateIgnoreLabels := aggregateIgnoreLabelsFlagDefaultValue
    envMockMetricsData := ""
    fileOpen := fun _ => Except.ok ()
    getArtifactoryConfig := fun _ => Except.error "server not configured"
    newArtifactoryFetcher := fun rt => Except.ok (UrlMetricsFetcher.artifactory rt) }

/-- A context selecting no source but with mock data present in the
environment. -/
def ctxMockOnly : Context := { baseContext with envMockMetricsData := "1" }

/-- A context selecting both the file and the url source. -/
def ctxTwoSources : Context :=
  { baseContext with flagFile := "metrics.log",
                     flagUrl := "http://localhost:8082/metrics" }

/-- A context selecting only the url source, everything else default. -/
def ctxUrlOnly : Context :=
  { baseContext with flagUrl := "http://localhost:8082/metrics" }

/-- The configuration parseCommonConfig resolves for ctxUrlOnly. -/
def confUrlOnly : commonConfiguration :=
  { file := ""
    urlMetricsFetcher := some (UrlMetricsFetcher.url "http://localhost:8082/metrics" "" "")
    interval := 5000000000
    filter := some dotStarRegexp
    aggregateIgnoreLabels := ["start", "end", "status"] }

/-- A url-source context whose interval, 9223372037 seconds, overflows the
int64 nanosecond representation of time.Duration. -/
def ctxIntervalOverflow : Context :=
  { ctxUrlOnly with flagInterval := "9223372037" }

/-- A url-source context with a ten-billion-second interval, also past the
int64 nanosecond range. -/
def ctxIntervalOverflowTen : Context :=
  { ctxUrlOnly with flagInterval := "10000000000" }

/-- A url-source context with the ALL sentinel as the ignore-labels flag. -/
def ctxAllSentinel : Context :=
  { ctxUrlOnly with flagAggregateIgnoreLabels := "ALL" }

/-- The configuration parseCommonConfig resolves for ctxAllSentinel. -/
def confAllSentinel : commonConfiguration :=
  { confUrlOnly with aggregateIgnoreLabels := ["ALL"] }

/-- A url-source context whose filter flag is an invalid pattern. -/
def ctxBadFilter : Context := { ctxUrlOnly with flagFilter := "(" }

/-- A url-source context whose filter flag is a valid literal pattern. -/
def ctxGoodFilter : Context := { ctxUrlOnly with flagFilter := "abc" }

/-- The compiled form of the abc pattern of ctxGoodFilter. -/
def compiledAbc : Regexp :=
  { expr := "abc"
    re := Re.cat (Re.chr 'a') (Re.cat (Re.chr 'b') (Re.cat (Re.chr 'c') Re.eps)) }

/-- A file-source context whose file cannot be opened. -/
def ctxBadFile : Context :=
  { baseContext with flagFile := "metrics.log",
                     fileOpen := fun _ => Except.error "no such file or directory" }

example : parseCommonConfig baseContext = (none, some GoErr.missingSource) := by decide
example : (parseCommonConfig { baseContext with flagUrl := "http://x" }).2 = none := by decide
example : (parseCommonConfig { baseContext with flagUrl := "http://x" }).1.map commonConfiguration.interval = some 5000000000 := by decide
example : (parseCommonConfig { baseContext with envMockMetricsData := "1" }).2 = none := by decide
example : (parseCommonConfig { baseContext with flagUrl := "u", flagInterval := "0" }) = (none, some (GoErr.intervalNotPositive 0)) := by decide
example : (parseCommonConfig { baseContext with flagUrl := "u", flagInterval := "abc" }) = (none, some (GoErr.intervalParseFailed "abc" "invalid syntax")) := by decide
example : (parseCommonConfig { baseContext with flagUrl := "u", flagFilter := "(" }) = (none, some (GoErr.invalidFilter "missing closing paren")) := by decide
example : (parseCommonConfig { baseContext with flagUrl := "u", flagAggregateIgnoreLabels := "ALL" }).1.map commonConfiguration.aggregateIgnoreLabels = some ["ALL"] := by decide
example : (parseCommonConfig { baseContext with flagUrl := "u" }).1.map commonConfiguration.aggregateIgnoreLabels = some ["start", "end", "status"] := by decide
example : (parseCommonConfig { baseContext with flagUrl := "u", flagFile := "f" }) = (none, some GoErr.tooManySources) := by decide
example : (parseCommonConfig { baseContext with flagFile := "f", fileOpen := fun _ => Except.error "no such file" }) = (none, some (GoErr.fileOpenFailed "f" "no such file")) := by decide
example : (parseCommonConfig { baseContext with flagUrl := "u", flagInterval := "9223372037" }).1.map commonConfiguration.interval = some (-9223372036709551616) := by decide
example : regexpCompile "abc" = Except.ok { expr := "abc", re := Re.cat (Re.chr 'a') (Re.cat (Re.chr 'b') (Re.cat (Re.chr 'c') Re.eps)) } := by rfl

/-- Membership in a StringSet after Add: an element is in the result
exactly when it was in the set or in the added list. -/
theorem mem_stringSet_add (xs : List String) (s : StringSet) (x : String) :
    x ∈ StringSet.Add s xs ↔ x ∈ s ∨ x ∈ xs := by
  induction xs generalizing s with
  | nil => simp [StringSet.Add]
  | cons y ys ih =>
    simp only [StringSet.Add, List.foldl_cons] at ih ⊢
    by_cases hy : y ∈ s
    · rw [if_pos hy, ih]
      simp only [List.mem_cons]
      constructor
      · rintro (h | h)
        · exact Or.inl h
        · exact Or.inr (Or.inr h)
      · rintro (h | h | h)
        · exact Or.inl h
        · exact Or.inl (h ▸ hy)
        · exact Or.inr h
    · rw [if_neg hy, ih]
      simp only [List.mem_append, List.mem_singleton, List.mem_cons]
      tauto

/-- A zero source tally means none of the three source flags is set. -/
theorem countInputFlags_eq_zero (c : Context) (h : countInputFlags c = 0) :
    c.flagFile = "" ∧ c.flagUrl = "" ∧ c.flagArtifactory = false := by
  unfold countInputFlags at h
  by_cases hf : c.flagFile = "" <;> by_cases hu : c.flagUrl = "" <;>
    by_cases ha : c.flagArtifactory <;> simp [hf, hu, ha] at h ⊢

/-- A passed file probe means the file flag is empty or the open
succeeded. -/
theorem fileCheck_none (c : Context) (h : fileCheck c = none)
    (hf : c.flagFile ≠ "") : ∃ u, c.fileOpen c.flagFile = Except.ok u := by
  unfold fileCheck at h
  rw [if_pos hf] at h
  cases he : c.fileOpen c.flagFile with
  | ok u => exact ⟨u, rfl⟩
  | error e => rw [he] at h; exact absurd h (by simp)

/-- Every run of parseCommonConfig ends in exactly one of the two Go
return shapes: a configuration with a nil error, or a nil configuration
with an error. -/
theorem parse_shape (c : Context) :
    ((parseCommonConfig c).1.isSome ∧ (parseCommonConfig c).2 = none) ∨
      ((parseCommonConfig c).1 = none ∧ (parseCommonConfig c).2.isSome) := by
  unfold parseCommonConfig
  repeat' split <;> (try simp [buildConfig])

/-- Inversion of a successful run of parseCommonConfig: everything the
guards established about the input, and the exact contents of the
returned configuration. -/
theorem parse_ok_inv (c : Context) (conf : commonConfiguration)
    (h : (parseCommonConfig c).1 = some conf) :
    ¬(countInputFlags c = 0 ∧ c.envMockMetricsData = "") ∧
    countInputFlags c ≤ 1 ∧
    conf.file = c.flagFile ∧
    (c.flagFile ≠ "" → ∃ u, c.fileOpen c.flagFile = Except.ok u) ∧
    (∃ v, parseIntBase10 c.flagInterval = Except.ok v ∧ 0 < v ∧
      conf.interval = int64wrap (v * nsPerSecond)) ∧
    (c.flagFilter = "" → conf.filter = some dotStarRegexp) ∧
    (c.flagFilter ≠ "" →
      ∃ r, regexpCompile c.flagFilter = Except.ok r ∧ conf.filter = some r) ∧
    conf.filter.isSome ∧
    (c.flagAggregateIgnoreLabels = "" → conf.aggregateIgnoreLabels = []) ∧
    (c.flagAggregateIgnoreLabels ≠ "" →
      conf.aggregateIgnoreLabels =
        StringSet.Add [] (goSplitComma c.flagAggregateIgnoreLabels)) := by
  have h2 : (parseCommonConfig c).2 = none := by
    rcases parse_shape c with ⟨_, hn⟩ | ⟨hn, _⟩
    · exact hn
    · rw [hn] at h; exact absurd h (by simp)
  have hpair : parseCommonConfig c = (some conf, none) := Prod.ext h h2
  clear h h2
  unfold parseCommonConfig at hpair
  split at hpair
  · exact absurd hpair (by simp)
  · split at hpair
    · exact absurd hpair (by simp)
    · rename_i hms hcnt
      split at hpair
      · exact absurd hpair (by simp)
      · rename_i hfc
        split at hpair
        · exact absurd hpair (by simp)
        · rename_i fa haf
          split at hpair
          · exact absurd hpair (by simp)
          · rename_i intValue hint
            split at hpair
            · exact absurd hpair (by simp)
            · rename_i hpos
              have hbase :
                  ∀ flt : Regexp,
                    buildConfig c (resolvedFetcher c fa)
                        (int64wrap (intValue * nsPerSecond)) flt = (some conf, none) →
                    conf.file = c.flagFile ∧
                    conf.interval = int64wrap (intValue * nsPerSecond) ∧
                    conf.filter = some flt ∧
                    (c.flagAggregateIgnoreLabels = "" → conf.aggregateIgnoreLabels = []) ∧
                    (c.flagAggregateIgnoreLabels ≠ "" →
                      conf.aggregateIgnoreLabels =
                        StringSet.Add [] (goSplitComma c.flagAggregateIgnoreLabels)) := by
                intro flt hbc
                unfold buildConfig at hbc
                rw [Prod.mk.injEq] at hbc
                obtain ⟨hsome, -⟩ := hbc
                rw [Option.some.injEq] at hsome
                subst hsome
                refine ⟨rfl, rfl, rfl, ?_, ?_⟩
                · intro hlab
                  simp [hlab]
                · intro hlab
                  simp [if_neg hlab]
              split at hpair
              · rename_i hflt
                obtain ⟨hfile, hint2, hfltr, hlab1, hlab2⟩ := hbase _ hpair
                refine ⟨hms, by omega, hfile, fun hf => fileCheck_none c hfc hf,
                  ⟨intValue, hint, by omega, hint2⟩, fun _ => hfltr,
                  fun hne => absurd hflt hne, by simp [hfltr], hlab1, hlab2⟩
              · rename_i hflt
                split at hpair
                · exact absurd hpair (by simp)
                · rename_i r hcomp
                  obtain ⟨hfile, hint2, hfltr, hlab1, hlab2⟩ := hbase _ hpair
                  refine ⟨hms, by omega, hfile, fun hf => fileCheck_none c hfc hf,
                    ⟨intValue, hint, by omega, hint2⟩,
                    fun he => absurd he hflt,
                    fun _ => ⟨r, hcomp, hfltr⟩, by simp [hfltr], hlab1, hlab2⟩

/-- Forward run of parseCommonConfig when every check passes and the
filter flag is set: the returned configuration is exactly the one built
from the resolved pieces, with the compiled filter installed. -/
theorem parse_ok_build (c : Context) (fa : Option UrlMetricsFetcher) (v : Int)
    (r : Regexp)
    (hms : ¬(countInputFlags c = 0 ∧ c.envMockMetricsData = ""))
    (hcnt : ¬(1 < countInputFlags c))
    (hfc : fileCheck c = none)
    (haf : artifactoryFetcher c = Except.ok fa)
    (hint : parseIntBase10 c.flagInterval = Except.ok v)
    (hv : 0 < v)
    (hff : c.flagFilter ≠ "")
    (hcomp : regexpCompile c.flagFilter = Except.ok r) :
    parseCommonConfig c =
      (some { file := c.flagFile
              urlMetricsFetcher := resolvedFetcher c fa
              interval := int64wrap (v * nsPerSecond)
              filter := some r
              aggregateIgnoreLabels :=
                if c.flagAggregateIgnoreLabels = "" then []
                else StringSet.Add [] (goSplitComma c.flagAggregateIgnoreLabels) },
        none) := by
  unfold parseCommonConfig
  rw [if_neg hms, if_neg hcnt, hfc]
  dsimp only
  rw [haf]
  dsimp only
  rw [hint]
  dsimp only
  rw [if_neg (show ¬(v ≤ 0) by omega), if_neg hff, hcomp]
  rfl

example : parseCommonConfig ctxUrlOnly = (some confUrlOnly, none) := by decide
example : parseCommonConfig ctxAllSentinel = (some confAllSentinel, none) := by decide

/-- The default match-all filter accepts every string: its language
contains the empty substring at position zero of any input. -/
theorem dotStar_matches_all (s : String) :
    Regexp.matchString dotStarRegexp s = true := by
  unfold Regexp.matchString dotStarRegexp
  cases s.data with
  | nil => rfl
  | cons c cs => rfl

/-- Claim C1, counterexample: a flag assignment selecting none of the
three sources for which parseCommonConfig nevertheless returns a
configuration and no error, because the MOCK_METRICS_DATA environment
variable is non-empty. -/
theorem zero_sources_with_mock_data_succeeds :
    countInputFlags ctxMockOnly = 0 ∧
    (parseCommonConfig ctxMockOnly).1.isSome = true ∧
    (parseCommonConfig ctxMockOnly).2 = none := by decide

/-- Claim C1 (amended): selecting two or more sources always fails with
the conflicting-source error, and selecting none fails with the
missing-source error provided MOCK_METRICS_DATA is empty. -/
theorem source_selection_checks (c : Context) :
    (1 < countInputFlags c →
      parseCommonConfig c = (none, some GoErr.tooManySources)) ∧
    (countInputFlags c = 0 → c.envMockMetricsData = "" →
      parseCommonConfig c = (none, some GoErr.missingSource)) := by
  constructor
  · intro h
    unfold parseCommonConfig
    rw [if_neg (fun hand => absurd hand.1 (by omega)), if_pos h]
  · intro h0 henv
    unfold parseCommonConfig
    rw [if_pos ⟨h0, henv⟩]

/-- Claim C1, witness: two selected sources produce the conflicting-source
error at a concrete input. -/
theorem source_selection_checks_witness :
    parseCommonConfig ctxTwoSources = (none, some GoErr.tooManySources) :=
  (source_selection_checks ctxTwoSources).1 (by decide)

/-- Claim C2: at interval flag value 9223372037 resolution succeeds, the
seconds value times nsPerSecond is 9223372037000000000, yet the stored
time.Duration is the int64-wrapped -9223372036709551616 — the resolved
poll interval does not equal that many seconds. -/
theorem interval_seconds_overflow_bug :
    (parseCommonConfig ctxIntervalOverflow).1.map commonConfiguration.interval =
      some (-9223372036709551616) ∧
    (9223372037 : Int) * nsPerSecond = 9223372037000000000 ∧
    (-9223372036709551616 : Int) ≠ 9223372037000000000 := by decide

/-- Claim C3, counterexample: under the spec's tagged-variant
representation the ALL flag text resolves to the All variant, but the
code's resolved configuration stores the string ALL as an ordinary member
of the string set. -/
theorem sentinel_stored_as_plain_member :
    ignoreSpecOfFlag "ALL" = IgnoreLabelsSpec.allLabels ∧
    (parseCommonConfig ctxAllSentinel).1.map
        commonConfiguration.aggregateIgnoreLabels = some ["ALL"] := by decide

/-- Claim C3 (amended): the resolved ignore-label configuration keeps the
ALL and NONE sentinels as ordinary members of the resolved string set; no
tagged variant is constructed at configuration-resolution time. -/
theorem sentinels_resolved_as_members (c : Context) (conf : commonConfiguration)
    (h : (parseCommonConfig c).1 = some conf) :
    (c.flagAggregateIgnoreLabels = "ALL" → conf.aggregateIgnoreLabels = ["ALL"]) ∧
    (c.flagAggregateIgnoreLabels = "NONE" → conf.aggregateIgnoreLabels = ["NONE"]) := by
  obtain ⟨-, -, -, -, -, -, -, -, -, hlab⟩ := parse_ok_inv c conf h
  constructor
  · intro hall
    have hne : c.flagAggregateIgnoreLabels ≠ "" := by simp [hall]
    rw [hlab hne, hall]
    decide
  · intro hnone
    have hne : c.flagAggregateIgnoreLabels ≠ "" := by simp [hnone]
    rw [hlab hne, hnone]
    decide

/-- Claim C3, witness: at the concrete ALL context the resolved set is
exactly the one-member list holding the string ALL. -/
theorem sentinels_resolved_as_members_witness :
    confAllSentinel.aggregateIgnoreLabels = ["ALL"] :=
  (sentinels_resolved_as_members ctxAllSentinel confAllSentinel (by decide)).1 (by decide)

/-- Claim C4: at the default flag value the resolved ignore-label set is
exactly start, end, status; for any non-empty flag value the resolved set
has exactly the members obtained by splitting the flag value on commas. -/
theorem aggregate_ignore_labels_resolution (c : Context) (conf : commonConfiguration)
    (h : (parseCommonConfig c).1 = some conf) :
    (c.flagAggregateIgnoreLabels = aggregateIgnoreLabelsFlagDefaultValue →
      conf.aggregateIgnoreLabels = ["start", "end", "status"]) ∧
    (c.flagAggregateIgnoreLabels ≠ "" →
      ∀ x, x ∈ conf.aggregateIgnoreLabels ↔
        x ∈ goSplitComma c.flagAggregateIgnoreLabels) := by
  obtain ⟨-, -, -, -, -, -, -, -, -, hlab⟩ := parse_ok_inv c conf h
  constructor
  · intro hdef
    have hne : c.flagAggregateIgnoreLabels ≠ "" := by
      rw [hdef]; decide
    rw [hlab hne, hdef]
    decide
  · intro hne x
    rw [hlab hne, mem_stringSet_add]
    simp

/-- Claim C4, witness: the default flag value resolves to the start, end,
status set at a concrete input, and membership agrees with the comma
split. -/
theorem aggregate_ignore_labels_resolution_witness :
    confUrlOnly.aggregateIgnoreLabels = ["start", "end", "status"] ∧
    ("end" ∈ confUrlOnly.aggregateIgnoreLabels ↔
      "end" ∈ goSplitComma ctxUrlOnly.flagAggregateIgnoreLabels) :=
  ⟨(aggregate_ignore_labels_resolution ctxUrlOnly confUrlOnly (by decide)).1 (by decide),
   (aggregate_ignore_labels_resolution ctxUrlOnly confUrlOnly (by decide)).2
     (by decide) "end"⟩

/-- Claim C5: when the filter flag is empty, every successfully resolved
configuration carries the compiled dot-star filter, and that filter
matches every string. -/
theorem default_filter_matches_everything (c : Context)
    (conf : commonConfiguration) (s : String) (hff : c.flagFilter = "")
    (h : (parseCommonConfig c).1 = some conf) :
    conf.filter = some dotStarRegexp ∧
    Regexp.matchString dotStarRegexp s = true := by
  obtain ⟨-, -, -, -, -, hdef, -, -, -, -⟩ := parse_ok_inv c conf h
  exact ⟨hdef hff, dotStar_matches_all s⟩

/-- Claim C5, witness: the concrete url-only context resolves to the
dot-star filter, which accepts a concrete family name. -/
theorem default_filter_matches_everything_witness :
    confUrlOnly.filter = some dotStarRegexp ∧
    Regexp.matchString dotStarRegexp "http_requests_total" = true :=
  default_filter_matches_everything ctxUrlOnly confUrlOnly
    "http_requests_total" rfl (by decide)

/-- Claim C6: a non-empty filter flag that fails to compile makes
parseCommonConfig return an error and no configuration; a filter flag
that compiles, with every other check passing, yields a configuration
whose filter is exactly the compiled pattern. -/
theorem filter_flag_compilation (c : Context) (hff : c.flagFilter ≠ "") :
    (∀ e, regexpCompile c.flagFilter = Except.error e →
      (parseCommonConfig c).1 = none ∧ (parseCommonConfig c).2.isSome) ∧
    (∀ r fa v, regexpCompile c.flagFilter = Except.ok r →
      ¬(countInputFlags c = 0 ∧ c.envMockMetricsData = "") →
      ¬(1 < countInputFlags c) →
      fileCheck c = none →
      artifactoryFetcher c = Except.ok fa →
      parseIntBase10 c.flagInterval = Except.ok v →
      0 < v →
      ∃ conf, parseCommonConfig c = (some conf, none) ∧ conf.filter = some r) := by
  constructor
  · intro e hcomp
    have h1 : (parseCommonConfig c).1 = none := by
      cases ho : (parseCommonConfig c).1 with
      | none => rfl
      | some conf =>
        obtain ⟨-, -, -, -, -, -, hfl, -⟩ := parse_ok_inv c conf ho
        obtain ⟨r, hr, -⟩ := hfl hff
        rw [hcomp] at hr
        exact absurd hr (by simp)
    refine ⟨h1, ?_⟩
    rcases parse_shape c with ⟨hs, -⟩ | ⟨-, hs⟩
    · rw [h1] at hs
      exact absurd hs (by simp)
    · exact hs
  · intro r fa v hcomp hms hcnt hfc haf hint hv
    exact ⟨_, parse_ok_build c fa v r hms hcnt hfc haf hint hv hff hcomp, rfl⟩

/-- Claim C6, witness: the unclosed-group pattern is rejected with an
error and no configuration at a concrete input, while a literal pattern
compiles and lands in the resolved configuration unchanged. -/
theorem filter_flag_compilation_witness :
    ((parseCommonConfig ctxBadFilter).1 = none ∧
      (parseCommonConfig ctxBadFilter).2.isSome) ∧
    (∃ conf, parseCommonConfig ctxGoodFilter = (some conf, none) ∧
      conf.filter = some compiledAbc) :=
  ⟨(filter_flag_compilation ctxBadFilter (by decide)).1
      "missing closing paren" (by rfl),
   (filter_flag_compilation ctxGoodFilter (by decide)).2 compiledAbc none 5
      (by rfl) (by decide) (by decide) (by rfl) (by rfl) (by rfl) (by decide)⟩

/-- Claim C7: parseCommonConfig always returns exactly one of the two Go
shapes — a configuration with a nil error or a nil configuration with a
non-nil error — and each invalid input (conflicting sources, missing
sources without mock data, non-positive or unparsable interval, invalid
filter pattern) lands in the error shape. -/
theorem parse_common_config_atomic (c : Context) :
    ((∃ conf, parseCommonConfig c = (some conf, none)) ∨
      (∃ e, parseCommonConfig c = (none, some e))) ∧
    (1 < countInputFlags c → (parseCommonConfig c).1 = none) ∧
    (countInputFlags c = 0 ∧ c.envMockMetricsData = "" →
      (parseCommonConfig c).1 = none) ∧
    ((∀ v, parseIntBase10 c.flagInterval = Except.ok v → v ≤ 0) →
      (parseCommonConfig c).1 = none) ∧
    (∀ e, c.flagFilter ≠ "" → regexpCompile c.flagFilter = Except.error e →
      (parseCommonConfig c).1 = none) := by
  refine ⟨?_, ?_, ?_, ?_, ?_⟩
  · rcases parse_shape c with ⟨hs, hn⟩ | ⟨hn, hs⟩
    · obtain ⟨conf, hconf⟩ := Option.isSome_iff_exists.mp hs
      exact Or.inl ⟨conf, Prod.ext hconf hn⟩
    · obtain ⟨e, he⟩ := Option.isSome_iff_exists.mp hs
      exact Or.inr ⟨e, Prod.ext hn he⟩
  · intro h
    cases ho : (parseCommonConfig c).1 with
    | none => rfl
    | some conf =>
      obtain ⟨-, hcnt, -⟩ := parse_ok_inv c conf ho
      omega
  · intro h
    cases ho : (parseCommonConfig c).1 with
    | none => rfl
    | some conf =>
      obtain ⟨hms, -⟩ := parse_ok_inv c conf ho
      exact absurd h hms
  · intro hbad
    cases ho : (parseCommonConfig c).1 with
    | none => rfl
    | some conf =>
      obtain ⟨-, -, -, -, ⟨v, hv, hvpos, -⟩, -⟩ := parse_ok_inv c conf ho
      have := hbad v hv
      omega
  · intro e hff hcomp
    cases ho : (parseCommonConfig c).1 with
    | none => rfl
    | some conf =>
      obtain ⟨-, -, -, -, -, -, hfl, -⟩ := parse_ok_inv c conf ho
      obtain ⟨r, hr, -⟩ := hfl hff
      rw [hcomp] at hr
      exact absurd hr (by simp)

/-- Claim C7, witness: the all-defaults context has no source selected and
no mock data, so the configuration component is nil at that concrete
input. -/
theorem parse_common_config_atomic_witness :
    (parseCommonConfig baseContext).1 = none :=
  (parse_common_config_atomic baseContext).2.2.1 ⟨by decide, rfl⟩

/-- Claim C8: with zero sources selected, the missing-source error is
returned exactly when MOCK_METRICS_DATA is empty — a non-empty value
suppresses that error. -/
theorem mock_data_escape_hatch (c : Context) (h0 : countInputFlags c = 0) :
    ((parseCommonConfig c).2 = some GoErr.missingSource ↔
      c.envMockMetricsData = "") := by
  obtain ⟨hf, hu, ha⟩ := countInputFlags_eq_zero c h0
  constructor
  · intro hmem
    by_contra henv
    have hfc : fileCheck c = none := by
      unfold fileCheck
      rw [if_neg (fun hne => hne hf)]
    have haf : artifactoryFetcher c = Except.ok none := by
      unfold artifactoryFetcher
      rw [ha]
      rfl
    unfold parseCommonConfig at hmem
    rw [if_neg (fun hand => henv hand.2), if_neg (by omega), hfc] at hmem
    dsimp only at hmem
    rw [haf] at hmem
    dsimp only at hmem
    split at hmem
    · exact absurd hmem (by simp)
    · split at hmem
      · exact absurd hmem (by simp)
      · split at hmem
        · exact absurd hmem (by simp [buildConfig])
        · split at hmem
          · exact absurd hmem (by simp)
          · exact absurd hmem (by simp [buildConfig])
  · intro henv
    unfold parseCommonConfig
    rw [if_pos ⟨h0, henv⟩]

/-- Claim C8, witness: zero sources with an empty environment produce the
missing-source error, and zero sources with mock data present do not. -/
theorem mock_data_escape_hatch_witness :
    (parseCommonConfig baseContext).2 = some GoErr.missingSource ∧
    ¬((parseCommonConfig ctxMockOnly).2 = some GoErr.missingSource) :=
  ⟨(mock_data_escape_hatch baseContext (by decide)).mpr rfl,
   fun h => absurd ((mock_data_escape_hatch ctxMockOnly (by decide)).mp h)
     (by decide)⟩

/-- Claim C9: a selected file source that cannot be opened makes
parseCommonConfig return an error and no configuration, and every
successfully resolved configuration keeps only the path string of an
openable file. -/
theorem file_source_startup_check (c : Context) :
    (∀ e, c.flagFile ≠ "" → c.fileOpen c.flagFile = Except.error e →
      (parseCommonConfig c).1 = none ∧ (parseCommonConfig c).2.isSome) ∧
    (∀ conf, (parseCommonConfig c).1 = some conf →
      conf.file = c.flagFile ∧
      (c.flagFile ≠ "" → ∃ u, c.fileOpen c.flagFile = Except.ok u)) := by
  constructor
  · intro e hf hopen
    have h1 : (parseCommonConfig c).1 = none := by
      cases ho : (parseCommonConfig c).1 with
      | none => rfl
      | some conf =>
        obtain ⟨-, -, -, hfo, -⟩ := parse_ok_inv c conf ho
        obtain ⟨u, hu⟩ := hfo hf
        rw [hopen] at hu
        exact absurd hu (by simp)
    refine ⟨h1, ?_⟩
    rcases parse_shape c with ⟨hs, -⟩ | ⟨-, hs⟩
    · rw [h1] at hs
      exact absurd hs (by simp)
    · exact hs
  · intro conf ho
    obtain ⟨-, -, hfile, hfo, -⟩ := parse_ok_inv c conf ho
    exact ⟨hfile, hfo⟩

/-- Claim C9, witness: a concrete unreadable file makes the run abort with
an error and no configuration. -/
theorem file_source_startup_check_witness :
    (parseCommonConfig ctxBadFile).1 = none ∧
    (parseCommonConfig ctxBadFile).2.isSome :=
  (file_source_startup_check ctxBadFile).1 "no such file or directory"
    (by decide) (by rfl)

/-- Claim C10: at interval flag value 10000000000 resolution succeeds with
a stored time.Duration of -8446744073709551616 nanoseconds, reported
unchanged by the Interval accessor — less than one second, violating the
claimed invariant that every returned configuration has an interval of at
least one second. -/
theorem interval_invariant_overflow_bug :
    (parseCommonConfig ctxIntervalOverflowTen).1.map
        commonConfiguration.Interval = some (-8446744073709551616) ∧
    (-8446744073709551616 : Int) < nsPerSecond := by decide
